import Mathlib

/-!
Shallow embedding of the coca-cola-agent daily marketing pipeline.

Each Python agent function (`run_scanner_for_city`, `run_analyzer_on_events`,
`run_creative_director`, `run_copywriter`, `run_visual_strategist`,
`run_image_creator`, `run_markdown_agent`) is translated to a Lean function
over an explicit environment that records the outcome of the external
effects the Python body performs (HTTP scrape, prompt-template file read,
LLM invocation, image-generation call).  A value of type `Except String α`
models a Python call that either returns normally (`.ok`) or raises an
exception (`.error`); the agents' "empty dict / empty list on failure"
sentinels are modelled with `Option`/`List` values inside the `.ok` payload,
mirroring Python dict truthiness (an empty dict is `none`, a non-empty dict
is `some`).  File writes by the orchestrator are modelled as a pure
filesystem: a list of (name, content) pairs where a write in "w" mode
prepends and a read returns the most recent entry, which is exactly the
truncating-overwrite semantics of `open(name, "w")`.
-/

deriving instance DecidableEq for Except

/-- RawEvent from the spec data model: produced by the scan collaborator. -/
structure RawEvent where
  event_title : String
  event_url : String
deriving DecidableEq, Repr

/-- The dictionary returned by `run_scanner_for_city`.  The Python value is a
dict whose only schema key is `"events"`; the empty dict `{}` (the failure
sentinel) is modelled as `events = none`, while a dict with the key present
is `events = some l`. -/
structure ScanData where
  events : Option (List RawEvent)
deriving DecidableEq, Repr

/-- AnalyzedEvent: raw event fields plus the trend analysis.  The
`marketing_potential_score` key may be absent in a malformed dict, which the
orchestrator reads with `event.get("marketing_potential_score", 0)`;
an `Option Int` field models that. -/
structure AnalyzedEvent where
  event_title : String
  event_url : String
  city : String
  summary : String
  marketing_potential_score : Option Int
  reasoning : String
deriving DecidableEq, Repr

/-- CreativeBrief as produced by `run_creative_director`. -/
structure CreativeBrief where
  marketing_angle : String
  target_emotion : String
  key_message : String
  target_audience : String
deriving DecidableEq, Repr

/-- CopyAssets as produced by `run_copywriter`. -/
structure CopyAssets where
  slogan : String
  social_media_post : String
  web_banner_copy : String
deriving DecidableEq, Repr

/-- ImagePromptData as produced by `run_visual_strategist`. -/
structure ImagePromptData where
  image_prompt : String
deriving DecidableEq, Repr

/-- The dictionary returned by `run_image_creator`, and also (as the all-`none`
value) the orchestrator's `image_creation_result = {}` default.  Each field
models one optional dict key, so "key present" is `isSome`. -/
structure ImageResult where
  status : Option String
  filename : Option String
  error : Option String
deriving DecidableEq, Repr

/-- The orchestrator's `image_creation_result = {}` default value. -/
def emptyImageResult : ImageResult := ⟨none, none, none⟩

/-- CampaignPackage as assembled in stage 4 of the orchestrator.  All four
keys are always present in the Python dict literal; `text_assets` holds the
copywriter result which may be the empty dict (`none`), and
`visual_assets_status` may be the empty dict (`emptyImageResult`). -/
structure CampaignPackage where
  source_event : AnalyzedEvent
  creative_brief : CreativeBrief
  text_assets : Option CopyAssets
  visual_assets_status : ImageResult
deriving DecidableEq, Repr

/- ---------------------------------------------------------------------
Agent stage functions.  Each environment records the outcome of the
external effects performed by the Python body, in program order.
--------------------------------------------------------------------- -/

/-- External-effect record for `run_scanner_for_city`: the `requests.get`
scrape (raising `RequestException` on failure), the prompt-template file
read (`none` models `FileNotFoundError`), and the structured LLM call. -/
structure ScannerEnv where
  scrape : Except String String
  promptFile : Option String
  llm : Except String ScanData

/-- `run_scanner_for_city` (event_scanner_agent.py).  A scrape failure is
caught and returns the empty dict; a missing prompt file is re-raised
(`except FileNotFoundError: raise`); an LLM failure is caught and returns
the empty dict; otherwise the LLM's structured response is returned. -/
def run_scanner_for_city (env : ScannerEnv) (_url : String) : Except String ScanData :=
  match env.scrape with
  | .error _ => .ok ⟨none⟩
  | .ok _scraped_content =>
    match env.promptFile with
    | none => .error "FileNotFoundError"
    | some _system_prompt =>
      match env.llm with
      | .error _ => .ok ⟨none⟩
      | .ok response => .ok response

/-- External-effect record for `run_analyzer_on_events`: the prompt file
read and the LLM call.  The LLM's dict is read with
`response.get("analyzed_events", [])`, so its payload is an optional list. -/
structure AnalyzerEnv where
  promptFile : Option String
  llm : Except String (Option (List AnalyzedEvent))

/-- `run_analyzer_on_events` (trend_analyzer_agent.py).  With no raw events
it returns `[]` before touching the prompt file; a missing prompt file is
re-raised; an LLM failure is caught and returns `[]`. -/
def run_analyzer_on_events (env : AnalyzerEnv) (_city : String) (events_data : ScanData) :
    Except String (List AnalyzedEvent) :=
  match events_data.events with
  | none => .ok []
  | some [] => .ok []
  | some (_ :: _) =>
    match env.promptFile with
    | none => .error "FileNotFoundError"
    | some _system_prompt =>
      match env.llm with
      | .error _ => .ok []
      | .ok response => .ok (response.getD [])

/-- External-effect record for `run_creative_director`. -/
structure DirectorEnv where
  promptFile : Option String
  llm : Except String CreativeBrief

/-- `run_creative_director` (creative_director_agent.py).  A missing prompt
file is re-raised; an LLM failure is caught and returns the empty dict
(`none`); otherwise the structured brief (a dict with all four required
keys, hence non-empty, modelled `some`) is returned. -/
def run_creative_director (env : DirectorEnv) (_analyzed_event : AnalyzedEvent) :
    Except String (Option CreativeBrief) :=
  match env.promptFile with
  | none => .error "FileNotFoundError"
  | some _system_prompt =>
    match env.llm with
    | .error _ => .ok none
    | .ok response => .ok (some response)

/-- External-effect record for `run_copywriter`. -/
structure CopywriterEnv where
  promptFile : Option String
  llm : Except String CopyAssets

/-- `run_copywriter` (copywriter_agent.py).  Same failure policy as the
creative director: re-raise on missing prompt file, empty dict on LLM
failure. -/
def run_copywriter (env : CopywriterEnv) (_creative_brief : CreativeBrief) (_city : String) :
    Except String (Option CopyAssets) :=
  match env.promptFile with
  | none => .error "FileNotFoundError"
  | some _system_prompt =>
    match env.llm with
    | .error _ => .ok none
    | .ok response => .ok (some response)

/-- External-effect record for `run_visual_strategist`. -/
structure VisualEnv where
  promptFile : Option String
  llm : Except String ImagePromptData

/-- `run_visual_strategist` (visual_strategist_agent.py).  Same failure
policy: re-raise on missing prompt file, empty dict on LLM failure. -/
def run_visual_strategist (env : VisualEnv) (_creative_brief : CreativeBrief) (_city : String) :
    Except String (Option ImagePromptData) :=
  match env.promptFile with
  | none => .error "FileNotFoundError"
  | some _system_prompt =>
    match env.llm with
    | .error _ => .ok none
    | .ok response => .ok (some response)

/-- External-effect record for `run_image_creator`: the whole
generate-decode-save `try` block collapses to one outcome (`.error` models
any exception raised inside it, all caught by the `except Exception`
handler), and `filename` is the timestamped name the body would save to. -/
structure ImageEnv where
  gen : Except String Unit
  filename : String

/-- `run_image_creator` (image_creator_agent.py).  Never raises: a missing
or empty `image_prompt` returns a Failed-tagged dict before the `try`
block, any exception inside the block is caught and returns a Failed-tagged
dict, and success returns a Success-tagged dict with the filename. -/
def run_image_creator (env : ImageEnv) (prompt_data : Option ImagePromptData) : ImageResult :=
  match prompt_data with
  | none => ⟨some "Failed", none, some "No prompt provided."⟩
  | some pd =>
    if pd.image_prompt = "" then ⟨some "Failed", none, some "No prompt provided."⟩
    else
      match env.gen with
      | .error e => ⟨some "Failed", none, some e⟩
      | .ok _ => ⟨some "Success", some env.filename, none⟩

/-- External-effect record for `run_markdown_agent`. -/
structure MarkdownEnv where
  promptFile : Option String
  llm : Except String String

/-- `run_markdown_agent` (markdown_writer_agent.py).  Returns the message
content written by the orchestrator (`markdown_text.content`).  A missing
prompt file is re-raised; an LLM failure is caught and returns a message
with empty content. -/
def run_markdown_agent (env : MarkdownEnv) (_campaign_package : List CampaignPackage) :
    Except String String :=
  match env.promptFile with
  | none => .error "FileNotFoundError"
  | some _system_prompt =>
    match env.llm with
    | .error _ => .ok ""
    | .ok response => .ok response

example :
    run_image_creator ⟨Except.ok (), "campaign-images/x.png"⟩ (some ⟨"a prompt"⟩)
      = ⟨some "Success", some "campaign-images/x.png", none⟩ := by decide

example :
    run_creative_director ⟨none, Except.ok ⟨"a", "b", "c", "d"⟩⟩
      ⟨"t", "u", "c", "s", some 9, "r"⟩ = Except.error "FileNotFoundError" := by decide

/- ---------------------------------------------------------------------
Orchestrator (orchestrator.py, `run_daily_marketing_pipeline`).
--------------------------------------------------------------------- -/

/-- Severity of an orchestrator-level log record. -/
inductive Level where
  | info
  | warning
  | error
deriving DecidableEq, Repr

/-- Content written to a file by the orchestrator: either the
`json.dump`ed campaign batch or a markdown text blob. -/
inductive FileContent where
  | json (batch : List CampaignPackage)
  | text (s : String)
deriving DecidableEq, Repr

/-- The filesystem seen by the orchestrator's `open(..., "w")` writes:
a history of writes, newest first. -/
def FS : Type := List (String × FileContent)

deriving instance DecidableEq for FS

/-- A write in `"w"` mode: the new content shadows any previous content of
the same name (truncating overwrite). -/
def fsWrite (fs : FS) (name : String) (c : FileContent) : FS := (name, c) :: fs

/-- Reading a file yields the most recently written content of that name. -/
def fsRead : FS → String → Option FileContent
  | [], _ => none
  | (n, c) :: rest, name => if n = name then some c else fsRead rest name

/-- The external world of one pipeline run: an effect record for every
collaborator invocation the orchestrator may perform (keyed by the
arguments the orchestrator passes), plus the two date stamps returned by
the two `datetime.now().strftime("%Y-%m-%d")` calls in stages 5 and 6. -/
structure PipelineEnv where
  scanEnv : String → ScannerEnv
  analyzeEnv : String → AnalyzerEnv
  directEnv : AnalyzedEvent → DirectorEnv
  copyEnv : CreativeBrief → String → CopywriterEnv
  visualEnv : CreativeBrief → String → VisualEnv
  imageEnv : ImagePromptData → ImageEnv
  mdEnv : MarkdownEnv
  jsonDate : String
  mdDate : String

/-- The orchestrator's hardcoded `targets` dict, in insertion order. -/
def targets : List (String × String) :=
  [("São Paulo", "https://g1.globo.com/sp/sao-paulo/"),
   ("New York", "https://gothamist.com/"),
   ("Tokyo", "https://www.timeout.com/tokyo/things-to-do")]

/-- The orchestrator's score read `event.get("marketing_potential_score", 0)`. -/
def scoreOf (event : AnalyzedEvent) : Int := event.marketing_potential_score.getD 0

/-- Body of the stage-1/2 per-city loop (one `try` iteration of
`for city, url in targets.items()`): scan, then — when the scanner's dict
and its `"events"` list are both truthy — analyze and filter by
`marketing_potential_score >= 7`.  An exception raised by the scanner or
the analyzer is caught by the per-city handler, so this city contributes
nothing; the contribution is what the iteration `extend`s onto
`all_high_potential_events`. -/
def processTarget (env : PipelineEnv) (city url : String) : List AnalyzedEvent :=
  match run_scanner_for_city (env.scanEnv url) url with
  | .error _ => []
  | .ok raw_events_data =>
    match raw_events_data.events with
    | some (_ :: _) =>
      match run_analyzer_on_events (env.analyzeEnv city) city raw_events_data with
      | .error _ => []
      | .ok analyzed_events =>
        analyzed_events.filter (fun event => decide (7 ≤ scoreOf event))
    | _ => []

/-- Stage-1/2 loop over the configured targets, accumulating
`all_high_potential_events`. -/
def scanLoop (env : PipelineEnv) : List (String × String) → List AnalyzedEvent
  | [] => []
  | (city, url) :: rest => processTarget env city url ++ scanLoop env rest

/-- The stage-3 image-creation step: `image_creation_result = {}` unless the
visual strategist's dict and its `image_prompt` string are both truthy, in
which case `run_image_creator` is invoked on it. -/
def imageStep (env : PipelineEnv) (image_prompt_data : Option ImagePromptData) : ImageResult :=
  match image_prompt_data with
  | none => emptyImageResult
  | some pd =>
    if pd.image_prompt = "" then emptyImageResult
    else run_image_creator (env.imageEnv pd) (some pd)

/-- Body of the stage-3 per-event `try` block: creative direction (empty
brief means `continue`, modelled `.ok none`), then copy and visual
strategy, then the image step, then the assembled package (`.ok (some _)`
means the package is appended).  `.error` models an exception escaping the
body and being caught by the per-event handler — since the `append` is the
last action of the body, an `.error` iteration appends nothing. -/
def processEvent (env : PipelineEnv) (event : AnalyzedEvent) :
    Except String (Option CampaignPackage) :=
  match run_creative_director (env.directEnv event) event with
  | .error e => .error e
  | .ok none => .ok none
  | .ok (some creative_brief) =>
    match run_copywriter (env.copyEnv creative_brief event.city) creative_brief event.city with
    | .error e => .error e
    | .ok campaign_copy =>
      match run_visual_strategist (env.visualEnv creative_brief event.city)
          creative_brief event.city with
      | .error e => .error e
      | .ok image_prompt_data =>
        .ok (some ⟨event, creative_brief, campaign_copy, imageStep env image_prompt_data⟩)

/-- Stage-3 loop over the worklist, accumulating `completed_campaigns`. -/
def campaignLoop (env : PipelineEnv) : List AnalyzedEvent → List CampaignPackage
  | [] => []
  | event :: rest =>
    match processEvent env event with
    | .error _ => campaignLoop env rest
    | .ok none => campaignLoop env rest
    | .ok (some final_campaign_package) => final_campaign_package :: campaignLoop env rest

/-- Stage-5 JSON artifact name,
`f"{CAMPAIGN_PACKAGES_DIR}full_campaign_packages_{timestamp}.json"`. -/
def jsonFileName (timestamp : String) : String :=
  "campaign-packages/full_campaign_packages_" ++ timestamp ++ ".json"

/-- Stage-6 markdown artifact name, `f"{timestamp}.md"`. -/
def mdFileName (timestamp : String) : String := timestamp ++ ".md"

/-- Everything observable from one completed pipeline run: the collected
worklist, the campaign batch, the filesystem after the artifact writes, and
the orchestrator-level log records produced outside the per-city and
per-event loops (the purely informational banner lines are omitted). -/
structure RunResult where
  worklist : List AnalyzedEvent
  batch : List CampaignPackage
  fs : FS
  log : List (Level × String)
deriving DecidableEq

/-- `run_daily_marketing_pipeline` (orchestrator.py): stages 1-2 build the
worklist (returning early with a warning when it is empty), stage 3 builds
the batch, stage 5 writes the dated JSON artifact only when the batch is
non-empty (warning otherwise), and stage 6 invokes the markdown agent and
writes the dated markdown artifact.  The stage-6 markdown call is the one
collaborator invocation the function does not guard, so an exception it
raises (`.error`) propagates out of the pipeline. -/
def run_daily_marketing_pipeline (env : PipelineEnv) (fs0 : FS) : Except String RunResult :=
  let all_high_potential_events := scanLoop env targets
  if all_high_potential_events = [] then
    .ok ⟨all_high_potential_events, [], fs0,
      [(Level.warning, "No high-potential events found across all cities. Ending pipeline run.")]⟩
  else
    let completed_campaigns := campaignLoop env all_high_potential_events
    let fs1 :=
      if completed_campaigns = [] then fs0
      else fsWrite fs0 (jsonFileName env.jsonDate) (FileContent.json completed_campaigns)
    let log5 :=
      if completed_campaigns = [] then
        [(Level.warning, "Pipeline run completed, but no campaign packages were generated.")]
      else
        [(Level.info,
          "Successfully saved full campaign packages to " ++ jsonFileName env.jsonDate)]
    match run_markdown_agent env.mdEnv completed_campaigns with
    | .error e => .error e
    | .ok markdown_text =>
      .ok ⟨all_high_potential_events, completed_campaigns,
        fsWrite fs1 (mdFileName env.mdDate) (FileContent.text markdown_text),
        log5 ++ [(Level.info,
          "Successfully saved full campaign packages as " ++ mdFileName env.mdDate)]⟩

/- Sample data for concrete runs. -/

/-- A sample high-potential analyzed event. -/
def sampleEvent : AnalyzedEvent :=
  ⟨"Queens Night Market", "https://example.com/qnm", "New York",
   "Open-air food festival", some 9, "Large happy crowds"⟩

/-- A second sample high-potential analyzed event. -/
def sampleEvent2 : AnalyzedEvent :=
  ⟨"Summer Festival", "https://example.com/sf", "Tokyo",
   "Street festival", some 8, "Big audience"⟩

/-- A sample creative brief. -/
def sampleBrief : CreativeBrief :=
  ⟨"Refreshment companion", "Joyful Discovery", "Every flavor finds its partner", "Foodies"⟩

/-- A second sample creative brief. -/
def sampleBrief2 : CreativeBrief :=
  ⟨"Shared moments", "Togetherness", "Better together", "Friends"⟩

/-- A sample copywriter result. -/
def sampleCopy : CopyAssets :=
  ⟨"Taste the moment", "Ice-cold Coke at the market #coke", "Find your flavor with Coke"⟩

/-- An environment in which every collaborator succeeds: each configured
city scans to one raw event that analyzes to `sampleEvent` with score 9. -/
def happyEnv : PipelineEnv where
  scanEnv := fun _ => ⟨Except.ok "page text", some "scan prompt",
    Except.ok ⟨some [⟨"Queens Night Market", "https://example.com/qnm"⟩]⟩⟩
  analyzeEnv := fun _ => ⟨some "analyze prompt", Except.ok (some [sampleEvent])⟩
  directEnv := fun _ => ⟨some "direct prompt", Except.ok sampleBrief⟩
  copyEnv := fun _ _ => ⟨some "copy prompt", Except.ok sampleCopy⟩
  visualEnv := fun _ _ => ⟨some "visual prompt", Except.ok ⟨"a bottle at the market"⟩⟩
  imageEnv := fun _ => ⟨Except.ok (), "campaign-images/campaign_image_1.png"⟩
  mdEnv := ⟨some "markdown prompt", Except.ok "# Campaigns"⟩
  jsonDate := "2025-06-01"
  mdDate := "2025-06-01"

example : scanLoop happyEnv targets = [sampleEvent, sampleEvent, sampleEvent] := by decide

example :
    campaignLoop happyEnv [sampleEvent] =
      [⟨sampleEvent, sampleBrief, some sampleCopy,
        ⟨some "Success", some "campaign-images/campaign_image_1.png", none⟩⟩] := by decide

/- ---------------------------------------------------------------------
Structural lemmas about the two fan-out loops.
--------------------------------------------------------------------- -/

theorem scanLoop_append (env : PipelineEnv) (xs ys : List (String × String)) :
    scanLoop env (xs ++ ys) = scanLoop env xs ++ scanLoop env ys := by
  induction xs with
  | nil => simp [scanLoop]
  | cons t rest ih => cases t with
    | mk city url => simp [scanLoop, ih]

theorem campaignLoop_append (env : PipelineEnv) (xs ys : List AnalyzedEvent) :
    campaignLoop env (xs ++ ys) = campaignLoop env xs ++ campaignLoop env ys := by
  induction xs with
  | nil => simp [campaignLoop]
  | cons e rest ih =>
    simp only [List.cons_append, campaignLoop]
    cases processEvent env e with
    | error _ => exact ih
    | ok o => cases o with
      | none => exact ih
      | some p => simp [ih]

theorem processEvent_ok_source (env : PipelineEnv) (event : AnalyzedEvent)
    (p : CampaignPackage) (h : processEvent env event = Except.ok (some p)) :
    p.source_event = event := by
  unfold processEvent at h
  cases hd : run_creative_director (env.directEnv event) event with
  | error e => rw [hd] at h; exact Except.noConfusion h
  | ok ob =>
    rw [hd] at h
    cases ob with
    | none => simp at h
    | some creative_brief =>
      dsimp only at h
      cases hc : run_copywriter (env.copyEnv creative_brief event.city)
          creative_brief event.city with
      | error e => rw [hc] at h; exact Except.noConfusion h
      | ok campaign_copy =>
        rw [hc] at h
        cases hv : run_visual_strategist (env.visualEnv creative_brief event.city)
            creative_brief event.city with
        | error e => rw [hv] at h; exact Except.noConfusion h
        | ok image_prompt_data =>
          rw [hv] at h
          simp only [Except.ok.injEq, Option.some.injEq] at h
          rw [← h]

/- ---------------------------------------------------------------------
Claim C1.
--------------------------------------------------------------------- -/

/-- Claim C1 (corrected).  For the scan, analyze, direct, copy,
visual-strategy and markdown stages, a failing collaborator invocation of
kind network error or failed structured LLM output is caught at the point
of invocation and converted to the stage's empty sentinel (empty dict,
empty list, or empty message content); the image-creation stage never
returns an empty value, tagging every outcome Success or Failed instead;
but a missing prompt-template configuration file is NOT caught: each
prompt-reading stage re-raises the `FileNotFoundError` past the stage
boundary. -/
theorem stage_failure_containment :
    (∀ (e p : String) (l : Except String ScanData) (u : String),
       run_scanner_for_city ⟨Except.error e, some p, l⟩ u = Except.ok ⟨none⟩)
  ∧ (∀ (c p e u : String),
       run_scanner_for_city ⟨Except.ok c, some p, Except.error e⟩ u = Except.ok ⟨none⟩)
  ∧ (∀ (p e c : String) (d : ScanData),
       run_analyzer_on_events ⟨some p, Except.error e⟩ c d = Except.ok [])
  ∧ (∀ (p e : String) (ev : AnalyzedEvent),
       run_creative_director ⟨some p, Except.error e⟩ ev = Except.ok none)
  ∧ (∀ (p e city : String) (b : CreativeBrief),
       run_copywriter ⟨some p, Except.error e⟩ b city = Except.ok none)
  ∧ (∀ (p e city : String) (b : CreativeBrief),
       run_visual_strategist ⟨some p, Except.error e⟩ b city = Except.ok none)
  ∧ (∀ (p e : String) (batch : List CampaignPackage),
       run_markdown_agent ⟨some p, Except.error e⟩ batch = Except.ok "")
  ∧ (∀ (env : ImageEnv) (pd : Option ImagePromptData),
       (run_image_creator env pd).status = some "Failed"
       ∨ (run_image_creator env pd).status = some "Success")
  ∧ (∀ (c : String) (l : Except String ScanData) (u : String),
       run_scanner_for_city ⟨Except.ok c, none, l⟩ u = Except.error "FileNotFoundError")
  ∧ (∀ (l : Except String (Option (List AnalyzedEvent))) (c : String)
       (r : RawEvent) (rs : List RawEvent),
       run_analyzer_on_events ⟨none, l⟩ c ⟨some (r :: rs)⟩ = Except.error "FileNotFoundError")
  ∧ (∀ (l : Except String CreativeBrief) (ev : AnalyzedEvent),
       run_creative_director ⟨none, l⟩ ev = Except.error "FileNotFoundError")
  ∧ (∀ (l : Except String CopyAssets) (b : CreativeBrief) (city : String),
       run_copywriter ⟨none, l⟩ b city = Except.error "FileNotFoundError")
  ∧ (∀ (l : Except String ImagePromptData) (b : CreativeBrief) (city : String),
       run_visual_strategist ⟨none, l⟩ b city = Except.error "FileNotFoundError")
  ∧ (∀ (l : Except String String) (batch : List CampaignPackage),
       run_markdown_agent ⟨none, l⟩ batch = Except.error "FileNotFoundError") := by
  refine ⟨fun _ _ _ _ => rfl, fun _ _ _ _ => rfl, ?_, fun _ _ _ => rfl, fun _ _ _ _ => rfl,
    fun _ _ _ _ => rfl, fun _ _ _ => rfl, ?_, fun _ _ _ => rfl, fun _ _ _ _ => rfl,
    fun _ _ => rfl, fun _ _ _ => rfl, fun _ _ _ => rfl, fun _ _ => rfl⟩
  · intro p e c d
    obtain ⟨ev⟩ := d
    cases ev with
    | none => rfl
    | some raw => cases raw <;> rfl
  · intro env pd
    cases pd with
    | none => left; rfl
    | some q =>
      have hrun : run_image_creator env (some q) =
          if q.image_prompt = "" then ⟨some "Failed", none, some "No prompt provided."⟩
          else
            match env.gen with
            | .error e => ⟨some "Failed", none, some e⟩
            | .ok _ => ⟨some "Success", some env.filename, none⟩ := rfl
      rw [hrun]
      by_cases hq : q.image_prompt = ""
      · rw [if_pos hq]; left; rfl
      · rw [if_neg hq]
        cases env.gen with
        | error e => left; rfl
        | ok u => right; rfl

/-- Counterexample to claim C1 as stated: the creative-direction stage with
a missing prompt-template file lets the `FileNotFoundError` propagate past
the stage boundary instead of returning the stage's empty sentinel. -/
theorem prompt_file_missing_raises_cex :
    run_creative_director ⟨none, Except.ok sampleBrief⟩ sampleEvent
      = Except.error "FileNotFoundError"
  ∧ run_creative_director ⟨none, Except.ok sampleBrief⟩ sampleEvent
      ≠ Except.ok none := by
  decide

/- ---------------------------------------------------------------------
Claim C2.
--------------------------------------------------------------------- -/

/-- "The scan or analyze step for this city fails": the scanner raises or
returns no events, or the analyzer raises or returns the empty list. -/
def scanAnalyzeFailsB (env : PipelineEnv) (t : String × String) : Bool :=
  match run_scanner_for_city (env.scanEnv t.2) t.2 with
  | .error _ => true
  | .ok d =>
    match d.events with
    | some (_ :: _) =>
      match run_analyzer_on_events (env.analyzeEnv t.1) t.1 d with
      | .error _ => true
      | .ok l => l.isEmpty
    | _ => true

/-- Propositional form of `scanAnalyzeFailsB`. -/
def scanAnalyzeFails (env : PipelineEnv) (t : String × String) : Prop :=
  scanAnalyzeFailsB env t = true

instance (env : PipelineEnv) (t : String × String) : Decidable (scanAnalyzeFails env t) := by
  unfold scanAnalyzeFails
  infer_instance

theorem processTarget_nil_of_fails (env : PipelineEnv) (t : String × String)
    (h : scanAnalyzeFails env t) : processTarget env t.1 t.2 = [] := by
  unfold scanAnalyzeFails scanAnalyzeFailsB at h
  unfold processTarget
  cases hs : run_scanner_for_city (env.scanEnv t.2) t.2 with
  | error e => rfl
  | ok d =>
    rw [hs] at h
    obtain ⟨ev⟩ := d
    cases ev with
    | none => rfl
    | some raw =>
      cases raw with
      | nil => rfl
      | cons r rs =>
        dsimp only at h ⊢
        cases ha : run_analyzer_on_events (env.analyzeEnv t.1) t.1 ⟨some (r :: rs)⟩ with
        | error e => rfl
        | ok l =>
          rw [ha] at h
          dsimp only at h
          rw [List.isEmpty_iff] at h
          subst h
          rfl

/-- Claim C2 (confirmed).  The stage-1/2 loop decomposes per target: the
worklist is each target's own contribution in order, and when the scan or
analyze step for a target fails (raises or returns empty) that target
contributes nothing while every other target is still scanned, analyzed and
collected exactly as before. -/
theorem target_failure_isolation (env : PipelineEnv) (pre post : List (String × String))
    (t : String × String) :
    scanLoop env (pre ++ t :: post)
      = scanLoop env pre ++ processTarget env t.1 t.2 ++ scanLoop env post
  ∧ (scanAnalyzeFails env t →
      scanLoop env (pre ++ t :: post) = scanLoop env pre ++ scanLoop env post) := by
  have hdec : scanLoop env (pre ++ t :: post)
      = scanLoop env pre ++ processTarget env t.1 t.2 ++ scanLoop env post := by
    rw [scanLoop_append]
    cases t with
    | mk city url => simp [scanLoop, List.append_assoc]
  refine ⟨hdec, fun h => ?_⟩
  rw [hdec, processTarget_nil_of_fails env t h]
  simp

/-- An environment in which the scanner raises a network error for one
particular source URL and every other collaborator behaves as in
`happyEnv`. -/
def cexEnvC2 : PipelineEnv :=
  { happyEnv with
    scanEnv := fun u =>
      if u = "https://bad.example.com/" then
        ⟨Except.error "ConnectionError", some "scan prompt",
         Except.ok ⟨some [⟨"E", "u"⟩]⟩⟩
      else happyEnv.scanEnv u }

/-- A target whose scan fails in `cexEnvC2`. -/
def tBad : String × String := ("Bad City", "https://bad.example.com/")

/-- A target whose scan succeeds in `cexEnvC2`. -/
def tGood : String × String := ("New York", "https://gothamist.com/")

/-- Witness for C2: a concrete failing target contributes nothing and the
remaining target is still processed. -/
theorem target_failure_isolation_witness :
    scanAnalyzeFails cexEnvC2 tBad
  ∧ scanLoop cexEnvC2 ([] ++ tBad :: [tGood])
      = scanLoop cexEnvC2 [] ++ scanLoop cexEnvC2 [tGood] :=
  ⟨by decide, (target_failure_isolation cexEnvC2 [] [tGood] tBad).2 (by decide)⟩

/- ---------------------------------------------------------------------
Claims C3, C4, C5: the per-event campaign loop.
--------------------------------------------------------------------- -/

theorem campaignLoop_cons_error (env : PipelineEnv) (x : AnalyzedEvent)
    (rest : List AnalyzedEvent) (e : String) (h : processEvent env x = Except.error e) :
    campaignLoop env (x :: rest) = campaignLoop env rest := by
  simp only [campaignLoop, h]

theorem campaignLoop_cons_none (env : PipelineEnv) (x : AnalyzedEvent)
    (rest : List AnalyzedEvent) (h : processEvent env x = Except.ok none) :
    campaignLoop env (x :: rest) = campaignLoop env rest := by
  simp only [campaignLoop, h]

theorem campaignLoop_cons_some (env : PipelineEnv) (x : AnalyzedEvent)
    (rest : List AnalyzedEvent) (p : CampaignPackage)
    (h : processEvent env x = Except.ok (some p)) :
    campaignLoop env (x :: rest) = p :: campaignLoop env rest := by
  simp only [campaignLoop, h]

/-- Claim C3 (confirmed).  When the creative-direction collaborator returns
the empty dict for an event, no campaign package for that event is ever
appended to the batch — the event is skipped outright and the loop
continues with the remaining events unchanged. -/
theorem direct_empty_hard_skip (env : PipelineEnv) (event : AnalyzedEvent)
    (h : run_creative_director (env.directEnv event) event = Except.ok none) :
    (∀ (worklist : List AnalyzedEvent) (p : CampaignPackage),
       p ∈ campaignLoop env worklist → p.source_event ≠ event)
  ∧ (∀ pre post : List AnalyzedEvent,
       campaignLoop env (pre ++ event :: post)
         = campaignLoop env pre ++ campaignLoop env post) := by
  have hpe : processEvent env event = Except.ok none := by
    unfold processEvent
    rw [h]
  constructor
  · intro worklist
    induction worklist with
    | nil => intro p hp; cases hp
    | cons x rest ih =>
      intro p hp
      cases hpx : processEvent env x with
      | error e =>
        rw [campaignLoop_cons_error env x rest e hpx] at hp
        exact ih p hp
      | ok o =>
        cases o with
        | none =>
          rw [campaignLoop_cons_none env x rest hpx] at hp
          exact ih p hp
        | some q =>
          rw [campaignLoop_cons_some env x rest q hpx] at hp
          cases hp with
          | head =>
            intro hcon
            have hsrc := processEvent_ok_source env x p hpx
            rw [hsrc] at hcon
            subst hcon
            rw [hpe] at hpx
            simp at hpx
          | tail _ hmem => exact ih p hmem
  · intro pre post
    rw [campaignLoop_append, campaignLoop_cons_none env event post hpe]

/-- Environment whose creative-direction LLM call fails, yielding the empty
brief for every event. -/
def cexEnvC3 : PipelineEnv :=
  { happyEnv with directEnv := fun _ => ⟨some "direct prompt", Except.error "RateLimit"⟩ }

/-- Witness for C3 at a concrete input: an empty creative brief for
`sampleEvent` removes it from the batch while the loop continues. -/
theorem direct_empty_hard_skip_witness :
    run_creative_director (cexEnvC3.directEnv sampleEvent) sampleEvent = Except.ok none
  ∧ campaignLoop cexEnvC3 ([] ++ sampleEvent :: [sampleEvent2])
      = campaignLoop cexEnvC3 [] ++ campaignLoop cexEnvC3 [sampleEvent2] :=
  ⟨by decide, (direct_empty_hard_skip cexEnvC3 sampleEvent (by decide)).2 [] [sampleEvent2]⟩

/-- Claim C4 (confirmed).  When the creative direction for an event returns
a non-empty brief and the copy and visual-strategy calls return (with any
result, including their empty failure sentinels), the batch gains exactly
one package per occurrence of the event in the worklist, and that package
carries all four fields: the event, the brief, the copy result (possibly
empty) and the image-step result (possibly the empty dict). -/
theorem direct_success_soft_degradation (env : PipelineEnv) (event : AnalyzedEvent)
    (brief : CreativeBrief) (campaign_copy : Option CopyAssets)
    (image_prompt_data : Option ImagePromptData)
    (h1 : run_creative_director (env.directEnv event) event = Except.ok (some brief))
    (h2 : run_copywriter (env.copyEnv brief event.city) brief event.city
            = Except.ok campaign_copy)
    (h3 : run_visual_strategist (env.visualEnv brief event.city) brief event.city
            = Except.ok image_prompt_data) :
    (∀ worklist : List AnalyzedEvent,
      (campaignLoop env worklist).countP (fun p => decide (p.source_event = event))
        = worklist.countP (fun x => decide (x = event)))
  ∧ (∀ (worklist : List AnalyzedEvent) (p : CampaignPackage),
      p ∈ campaignLoop env worklist → p.source_event = event →
        p = ⟨event, brief, campaign_copy, imageStep env image_prompt_data⟩) := by
  have hpe : processEvent env event
      = Except.ok (some ⟨event, brief, campaign_copy, imageStep env image_prompt_data⟩) := by
    unfold processEvent
    rw [h1]
    dsimp only
    rw [h2]
    dsimp only
    rw [h3]
  constructor
  · intro worklist
    induction worklist with
    | nil => rfl
    | cons x rest ih =>
      by_cases hx : x = event
      · subst hx
        rw [campaignLoop_cons_some env x rest _ hpe, List.countP_cons, List.countP_cons, ih]
      · cases hpx : processEvent env x with
        | error e =>
          rw [campaignLoop_cons_error env x rest e hpx, List.countP_cons, ih]
          simp [hx]
        | ok o =>
          cases o with
          | none =>
            rw [campaignLoop_cons_none env x rest hpx, List.countP_cons, ih]
            simp [hx]
          | some q =>
            rw [campaignLoop_cons_some env x rest q hpx, List.countP_cons,
              List.countP_cons, ih]
            have hq : q.source_event = x := processEvent_ok_source env x q hpx
            simp [hq, hx]
  · intro worklist
    induction worklist with
    | nil => intro p hp; cases hp
    | cons x rest ih =>
      intro p hp hsrc
      cases hpx : processEvent env x with
      | error e =>
        rw [campaignLoop_cons_error env x rest e hpx] at hp
        exact ih p hp hsrc
      | ok o =>
        cases o with
        | none =>
          rw [campaignLoop_cons_none env x rest hpx] at hp
          exact ih p hp hsrc
        | some q =>
          rw [campaignLoop_cons_some env x rest q hpx] at hp
          cases hp with
          | head =>
            have hq : p.source_event = x := processEvent_ok_source env x p hpx
            rw [hq] at hsrc
            subst hsrc
            rw [hpe] at hpx
            simp only [Except.ok.injEq, Option.some.injEq] at hpx
            exact hpx.symm
          | tail _ hmem => exact ih p hmem hsrc

/-- Environment in which the copy and visual-strategy LLM calls fail while
creative direction succeeds, so both degradable fields come back empty. -/
def cexEnvC4 : PipelineEnv :=
  { happyEnv with
    copyEnv := fun _ _ => ⟨some "copy prompt", Except.error "Timeout"⟩,
    visualEnv := fun _ _ => ⟨some "visual prompt", Except.error "Timeout"⟩ }

/-- Witness for C4 at a concrete input: with copy and visual strategy both
failing, exactly one package is still appended and its degradable fields
are empty rather than absent. -/
theorem direct_success_soft_degradation_witness :
    run_creative_director (cexEnvC4.directEnv sampleEvent) sampleEvent
      = Except.ok (some sampleBrief)
  ∧ run_copywriter (cexEnvC4.copyEnv sampleBrief sampleEvent.city) sampleBrief
      sampleEvent.city = Except.ok none
  ∧ run_visual_strategist (cexEnvC4.visualEnv sampleBrief sampleEvent.city) sampleBrief
      sampleEvent.city = Except.ok none
  ∧ (campaignLoop cexEnvC4 [sampleEvent]).countP
      (fun p => decide (p.source_event = sampleEvent))
      = ([sampleEvent] : List AnalyzedEvent).countP (fun x => decide (x = sampleEvent))
  ∧ campaignLoop cexEnvC4 [sampleEvent]
      = [⟨sampleEvent, sampleBrief, none, emptyImageResult⟩] :=
  ⟨by decide, by decide, by decide,
   (direct_success_soft_degradation cexEnvC4 sampleEvent sampleBrief none none
      (by decide) (by decide) (by decide)).1 [sampleEvent],
   by decide⟩

/-- Claim C5 (confirmed).  An exception escaping one event's
campaign-generation body is caught at the event level: since the append is
the body's final action, the batch gains no entry at all for that event —
not even a partial package — and every other event in the worklist is
processed exactly as before. -/
theorem event_exception_isolation (env : PipelineEnv) (event : AnalyzedEvent) (msg : String)
    (h : processEvent env event = Except.error msg) :
    (∀ pre post : List AnalyzedEvent,
       campaignLoop env (pre ++ event :: post)
         = campaignLoop env pre ++ campaignLoop env post)
  ∧ (∀ (worklist : List AnalyzedEvent) (p : CampaignPackage),
       p ∈ campaignLoop env worklist → p.source_event ≠ event) := by
  constructor
  · intro pre post
    rw [campaignLoop_append, campaignLoop_cons_error env event post msg h]
  · intro worklist
    induction worklist with
    | nil => intro p hp; cases hp
    | cons x rest ih =>
      intro p hp
      cases hpx : processEvent env x with
      | error e =>
        rw [campaignLoop_cons_error env x rest e hpx] at hp
        exact ih p hp
      | ok o =>
        cases o with
        | none =>
          rw [campaignLoop_cons_none env x rest hpx] at hp
          exact ih p hp
        | some q =>
          rw [campaignLoop_cons_some env x rest q hpx] at hp
          cases hp with
          | head =>
            intro hcon
            have hsrc := processEvent_ok_source env x p hpx
            rw [hsrc] at hcon
            subst hcon
            rw [h] at hpx
            exact Except.noConfusion hpx
          | tail _ hmem => exact ih p hmem

/-- Environment in which the copywriter's prompt-template file is missing
for `sampleBrief`'s event (so that event's body raises) while a second
event with a different brief still succeeds. -/
def cexEnvC5 : PipelineEnv :=
  { happyEnv with
    directEnv := fun ev =>
      if ev = sampleEvent then ⟨some "direct prompt", Except.ok sampleBrief⟩
      else ⟨some "direct prompt", Except.ok sampleBrief2⟩,
    copyEnv := fun b _ =>
      if b = sampleBrief then ⟨none, Except.ok sampleCopy⟩
      else ⟨some "copy prompt", Except.ok sampleCopy⟩ }

/-- Witness for C5 at a concrete input: one event whose body raises
contributes nothing while the following event is still processed. -/
theorem event_exception_isolation_witness :
    processEvent cexEnvC5 sampleEvent = Except.error "FileNotFoundError"
  ∧ campaignLoop cexEnvC5 ([] ++ sampleEvent :: [sampleEvent2])
      = campaignLoop cexEnvC5 [] ++ campaignLoop cexEnvC5 [sampleEvent2] :=
  ⟨by decide,
   (event_exception_isolation cexEnvC5 sampleEvent "FileNotFoundError" (by decide)).1
     [] [sampleEvent2]⟩

/- ---------------------------------------------------------------------
Claim C6.
--------------------------------------------------------------------- -/

/-- The analyze step's output for one target: the analyzed-event list the
per-city iteration obtains before the threshold filter, or `[]` when the
scan/analyze path does not produce one. -/
def analyzedOf (env : PipelineEnv) (city url : String) : List AnalyzedEvent :=
  match run_scanner_for_city (env.scanEnv url) url with
  | .error _ => []
  | .ok raw_events_data =>
    match raw_events_data.events with
    | some (_ :: _) =>
      match run_analyzer_on_events (env.analyzeEnv city) city raw_events_data with
      | .error _ => []
      | .ok analyzed_events => analyzed_events
    | _ => []

theorem processTarget_eq_filter (env : PipelineEnv) (city url : String) :
    processTarget env city url
      = (analyzedOf env city url).filter (fun event => decide (7 ≤ scoreOf event)) := by
  unfold processTarget analyzedOf
  cases hs : run_scanner_for_city (env.scanEnv url) url with
  | error e => rfl
  | ok d =>
    obtain ⟨ev⟩ := d
    cases ev with
    | none => rfl
    | some raw =>
      cases raw with
      | nil => rfl
      | cons r rs =>
        dsimp only
        cases ha : run_analyzer_on_events (env.analyzeEnv city) city ⟨some (r :: rs)⟩ with
        | error e => rfl
        | ok l => rfl

/-- Analyzed events used by the C6 boundary check: scores 7, 6 and absent. -/
def eventScore7 : AnalyzedEvent := ⟨"E7", "u7", "New York", "s", some 7, "r"⟩

/-- Score-6 analyzed event for the C6 boundary check. -/
def eventScore6 : AnalyzedEvent := ⟨"E6", "u6", "New York", "s", some 6, "r"⟩

/-- Analyzed event with the score key absent, for the C6 boundary check. -/
def eventNoScore : AnalyzedEvent := ⟨"E0", "u0", "New York", "s", none, "r"⟩

/-- Environment whose analyzer returns the three C6 boundary events. -/
def envC6 : PipelineEnv :=
  { happyEnv with
    analyzeEnv := fun _ =>
      ⟨some "analyze prompt", Except.ok (some [eventScore7, eventScore6, eventNoScore])⟩ }

/-- Claim C6 (confirmed).  An analyzed event enters the high-potential
worklist iff `marketing_potential_score` read with default 0 is at least 7:
the worklist is exactly the filter of the per-target analyze outputs, and
on a concrete boundary run score 7 is included while score 6 and an absent
score are excluded. -/
theorem threshold_seven_boundary :
    (∀ (env : PipelineEnv) (ts : List (String × String)),
      scanLoop env ts
        = (ts.flatMap (fun t => analyzedOf env t.1 t.2)).filter
            (fun event => decide (7 ≤ scoreOf event)))
  ∧ (∀ (env : PipelineEnv) (ts : List (String × String)) (event : AnalyzedEvent),
      event ∈ scanLoop env ts
        ↔ event ∈ ts.flatMap (fun t => analyzedOf env t.1 t.2) ∧ 7 ≤ scoreOf event)
  ∧ scanLoop envC6 [("New York", "https://gothamist.com/")] = [eventScore7] := by
  have hmain : ∀ (env : PipelineEnv) (ts : List (String × String)),
      scanLoop env ts
        = (ts.flatMap (fun t => analyzedOf env t.1 t.2)).filter
            (fun event => decide (7 ≤ scoreOf event)) := by
    intro env ts
    induction ts with
    | nil => rfl
    | cons t rest ih =>
      cases t with
      | mk city url =>
        rw [List.flatMap_cons, List.filter_append]
        simp only [scanLoop, ih, processTarget_eq_filter]
  refine ⟨hmain, fun env ts event => ?_, by decide⟩
  rw [hmain env ts]
  simp [List.mem_filter]

/- ---------------------------------------------------------------------
Claims C7, C8, C9: persistence and return behaviour of the pipeline.
--------------------------------------------------------------------- -/

theorem pipeline_empty_wl (env : PipelineEnv) (fs0 : FS)
    (hwl : scanLoop env targets = []) :
    run_daily_marketing_pipeline env fs0
      = Except.ok ⟨scanLoop env targets, [], fs0,
          [(Level.warning,
            "No high-potential events found across all cities. Ending pipeline run.")]⟩ := by
  simp only [run_daily_marketing_pipeline]
  rw [if_pos hwl]

theorem pipeline_run_eq (env : PipelineEnv) (fs0 : FS)
    (hwl : scanLoop env targets ≠ []) (s : String)
    (hmd : run_markdown_agent env.mdEnv (campaignLoop env (scanLoop env targets))
      = Except.ok s) :
    run_daily_marketing_pipeline env fs0
      = Except.ok ⟨scanLoop env targets, campaignLoop env (scanLoop env targets),
          fsWrite
            (if campaignLoop env (scanLoop env targets) = [] then fs0
             else fsWrite fs0 (jsonFileName env.jsonDate)
               (FileContent.json (campaignLoop env (scanLoop env targets))))
            (mdFileName env.mdDate) (FileContent.text s),
          (if campaignLoop env (scanLoop env targets) = [] then
            [(Level.warning, "Pipeline run completed, but no campaign packages were generated.")]
           else
            [(Level.info,
              "Successfully saved full campaign packages to " ++ jsonFileName env.jsonDate)])
          ++ [(Level.info,
              "Successfully saved full campaign packages as " ++ mdFileName env.mdDate)]⟩ := by
  simp only [run_daily_marketing_pipeline]
  rw [if_neg hwl, hmd]

/-- The filesystem left behind by a pipeline invocation (empty when the
invocation raised). -/
def runFS : Except String RunResult → FS
  | .ok r => r.fs
  | .error _ => []

theorem markdown_ok_of_prompt (env : PipelineEnv) (t : String)
    (ht : env.mdEnv.promptFile = some t) (batch : List CampaignPackage) :
    ∃ s, run_markdown_agent env.mdEnv batch = Except.ok s := by
  unfold run_markdown_agent
  rw [ht]
  cases env.mdEnv.llm with
  | error e => exact ⟨"", rfl⟩
  | ok s => exact ⟨s, rfl⟩

/-- Claim C7 (confirmed).  When the worklist is non-empty but the campaign
batch came out empty, persistence writes no JSON artifact (the only write
on top of the starting filesystem is the markdown one) and logs a warning,
while the markdown collaborator is still invoked on the empty batch and the
dated markdown write is still performed. -/
theorem empty_batch_json_skip_markdown_attempt (env : PipelineEnv) (fs0 : FS)
    (hwl : scanLoop env targets ≠ [])
    (hbatch : campaignLoop env (scanLoop env targets) = [])
    (hmd : env.mdEnv.promptFile.isSome) :
    ∃ (s : String) (r : RunResult),
      run_markdown_agent env.mdEnv [] = Except.ok s
      ∧ run_daily_marketing_pipeline env fs0 = Except.ok r
      ∧ r.fs = fsWrite fs0 (mdFileName env.mdDate) (FileContent.text s)
      ∧ (Level.warning, "Pipeline run completed, but no campaign packages were generated.")
          ∈ r.log := by
  obtain ⟨t, ht⟩ := Option.isSome_iff_exists.mp hmd
  obtain ⟨s, hs⟩ := markdown_ok_of_prompt env t ht []
  have hmd2 : run_markdown_agent env.mdEnv (campaignLoop env (scanLoop env targets))
      = Except.ok s := by rw [hbatch]; exact hs
  refine ⟨s, _, hs, pipeline_run_eq env fs0 hwl s hmd2, ?_, ?_⟩
  · simp [hbatch]
  · simp [hbatch]

/-- Environment reaching an empty batch from a non-empty worklist: the
creative-direction prompt template is missing, so every event's body raises
and is caught per event. -/
def cexEnvC7 : PipelineEnv :=
  { happyEnv with directEnv := fun _ => ⟨none, Except.ok sampleBrief⟩ }

/-- Witness for C7 at a concrete input. -/
theorem empty_batch_json_skip_markdown_attempt_witness :
    scanLoop cexEnvC7 targets ≠ []
  ∧ campaignLoop cexEnvC7 (scanLoop cexEnvC7 targets) = []
  ∧ ∃ (s : String) (r : RunResult),
      run_markdown_agent cexEnvC7.mdEnv [] = Except.ok s
      ∧ run_daily_marketing_pipeline cexEnvC7 [] = Except.ok r
      ∧ r.fs = fsWrite [] (mdFileName cexEnvC7.mdDate) (FileContent.text s)
      ∧ (Level.warning, "Pipeline run completed, but no campaign packages were generated.")
          ∈ r.log :=
  ⟨by decide, by decide,
   empty_batch_json_skip_markdown_attempt cexEnvC7 [] (by decide) (by decide) (by decide)⟩

/-- Claim C8 (corrected).  With the markdown prompt template present, the
pipeline function always returns normally, and a failing markdown LLM call
degrades to writing an empty markdown file; a missing markdown prompt
template, however, is re-raised by the markdown stage and propagates out of
the pipeline (see the counterexample). -/
theorem pipeline_returns_normally (env : PipelineEnv) (fs0 : FS)
    (hmd : env.mdEnv.promptFile.isSome) :
    (∃ r, run_daily_marketing_pipeline env fs0 = Except.ok r)
  ∧ (∀ e, env.mdEnv.llm = Except.error e → scanLoop env targets ≠ [] →
      ∃ r, run_daily_marketing_pipeline env fs0 = Except.ok r
        ∧ fsRead r.fs (mdFileName env.mdDate) = some (FileContent.text "")) := by
  obtain ⟨t, ht⟩ := Option.isSome_iff_exists.mp hmd
  constructor
  · by_cases hwl : scanLoop env targets = []
    · exact ⟨_, pipeline_empty_wl env fs0 hwl⟩
    · obtain ⟨s, hs⟩ := markdown_ok_of_prompt env t ht
        (campaignLoop env (scanLoop env targets))
      exact ⟨_, pipeline_run_eq env fs0 hwl s hs⟩
  · intro e he hwl
    have hs : run_markdown_agent env.mdEnv (campaignLoop env (scanLoop env targets))
        = Except.ok "" := by
      unfold run_markdown_agent
      rw [ht, he]
    refine ⟨_, pipeline_run_eq env fs0 hwl "" hs, ?_⟩
    simp [fsWrite, fsRead]

/-- Environment whose markdown prompt template is missing while the rest of
the pipeline succeeds. -/
def cexEnvC8 : PipelineEnv := { happyEnv with mdEnv := ⟨none, Except.ok "# Campaigns"⟩ }

/-- Counterexample to claim C8 as stated: with a missing markdown prompt
template the pipeline function raises `FileNotFoundError` past its own top
level instead of returning normally. -/
theorem markdown_prompt_missing_pipeline_raises_cex :
    run_daily_marketing_pipeline cexEnvC8 [] = Except.error "FileNotFoundError" := by
  decide

/-- Environment whose markdown LLM call fails (prompt template present). -/
def cexEnvC8w : PipelineEnv :=
  { happyEnv with mdEnv := ⟨some "markdown prompt", Except.error "Timeout"⟩ }

/-- Witness for C8 at a concrete input: a failing markdown LLM call still
lets the pipeline return normally, with an empty markdown file written. -/
theorem pipeline_returns_normally_witness :
    cexEnvC8w.mdEnv.promptFile.isSome = true
  ∧ ∃ r, run_daily_marketing_pipeline cexEnvC8w [] = Except.ok r
      ∧ fsRead r.fs (mdFileName cexEnvC8w.mdDate) = some (FileContent.text "") :=
  ⟨by decide,
   (pipeline_returns_normally cexEnvC8w [] (by decide)).2 "Timeout" (by decide) (by decide)⟩

theorem mdFileName_ne_jsonFileName (d : String) : mdFileName d ≠ jsonFileName d := by
  intro h
  have hlen := congrArg String.length h
  rw [mdFileName, jsonFileName, String.length_append, String.length_append,
    String.length_append] at hlen
  have e1 : (".md" : String).length = 3 := by decide
  have e3 : (".json" : String).length = 5 := by decide
  have hC : 1 ≤ ("campaign-packages/full_campaign_packages_" : String).length := by decide
  rw [e1, e3] at hlen
  omega

/-- Claim C9 (corrected).  The JSON and markdown artifact names each use a
date stamp read at that artifact's own write (the code computes the stamp
twice, not once — see the counterexample); whenever all those reads fall on
the same calendar date, both filenames share the stamp, and a second
invocation on that same date overwrites both artifacts — reading them
afterwards yields exactly the second run's batch and markdown text, with
nothing appended. -/
theorem same_date_overwrite (env1 env2 : PipelineEnv) (fs0 : FS) (d : String)
    (h1j : env1.jsonDate = d) (h1m : env1.mdDate = d)
    (h2j : env2.jsonDate = d) (h2m : env2.mdDate = d)
    (hmd : env2.mdEnv.promptFile.isSome)
    (hwl : scanLoop env2 targets ≠ [])
    (hb : campaignLoop env2 (scanLoop env2 targets) ≠ []) :
    ∃ (r2 : RunResult) (s : String),
      run_daily_marketing_pipeline env2 (runFS (run_daily_marketing_pipeline env1 fs0))
        = Except.ok r2
      ∧ run_markdown_agent env2.mdEnv r2.batch = Except.ok s
      ∧ fsRead r2.fs (jsonFileName d) = some (FileContent.json r2.batch)
      ∧ fsRead r2.fs (mdFileName d) = some (FileContent.text s) := by
  obtain ⟨t, ht⟩ := Option.isSome_iff_exists.mp hmd
  obtain ⟨s, hs⟩ := markdown_ok_of_prompt env2 t ht
    (campaignLoop env2 (scanLoop env2 targets))
  refine ⟨_, s,
    pipeline_run_eq env2 (runFS (run_daily_marketing_pipeline env1 fs0)) hwl s hs,
    hs, ?_, ?_⟩
  · rw [h2j, h2m]
    simp only [if_neg hb]
    rw [show fsWrite (fsWrite (runFS (run_daily_marketing_pipeline env1 fs0))
        (jsonFileName d) (FileContent.json (campaignLoop env2 (scanLoop env2 targets))))
        (mdFileName d) (FileContent.text s) = _ from rfl]
    unfold fsWrite fsRead
    rw [if_neg (mdFileName_ne_jsonFileName d)]
    simp [fsRead]
  · rw [h2j, h2m]
    simp only [if_neg hb]
    unfold fsWrite fsRead
    simp

/-- Environment producing two different date stamps within one persistence
phase: the stage-5 clock read falls on 2025-06-01 and the stage-6 read on
2025-06-02. -/
def cexEnvC9 : PipelineEnv := { happyEnv with mdDate := "2025-06-02" }

/-- Counterexample to claim C9 as stated: the date stamp is computed twice,
once per artifact, and the two values can differ — the JSON artifact lands
under 2025-06-01 while the markdown artifact lands under 2025-06-02, so the
two filenames do not share one stamp computed at the start of
persistence. -/
theorem persistence_two_date_stamps_cex :
    fsRead (runFS (run_daily_marketing_pipeline cexEnvC9 []))
      "campaign-packages/full_campaign_packages_2025-06-01.json" ≠ none
  ∧ fsRead (runFS (run_daily_marketing_pipeline cexEnvC9 [])) "2025-06-02.md" ≠ none
  ∧ fsRead (runFS (run_daily_marketing_pipeline cexEnvC9 []))
      "campaign-packages/full_campaign_packages_2025-06-02.json" = none
  ∧ fsRead (runFS (run_daily_marketing_pipeline cexEnvC9 [])) "2025-06-01.md" = none := by
  decide

/-- Witness for C9 at a concrete input. -/
theorem same_date_overwrite_witness :
    happyEnv.mdEnv.promptFile.isSome = true
  ∧ ∃ (r2 : RunResult) (s : String),
      run_daily_marketing_pipeline happyEnv (runFS (run_daily_marketing_pipeline happyEnv []))
        = Except.ok r2
      ∧ run_markdown_agent happyEnv.mdEnv r2.batch = Except.ok s
      ∧ fsRead r2.fs (jsonFileName "2025-06-01") = some (FileContent.json r2.batch)
      ∧ fsRead r2.fs (mdFileName "2025-06-01") = some (FileContent.text s) :=
  ⟨by decide,
   same_date_overwrite happyEnv happyEnv [] "2025-06-01" rfl rfl rfl rfl
     (by decide) (by decide) (by decide)⟩

/- ---------------------------------------------------------------------
Claim C10.
--------------------------------------------------------------------- -/

/-- Claim C10 (confirmed).  The image-creation collaborator always returns
a result tagged Success or Failed, never the empty dict; the `filename` key
is present iff the status is Success and the `error` key is present iff the
status is Failed; and an input with a missing or empty `image_prompt`
yields a Failed result carrying an error and no filename. -/
theorem image_creator_always_tagged (env : ImageEnv) (pd : Option ImagePromptData) :
    ((run_image_creator env pd).status = some "Success"
      ∨ (run_image_creator env pd).status = some "Failed")
  ∧ run_image_creator env pd ≠ emptyImageResult
  ∧ ((run_image_creator env pd).filename.isSome
      ↔ (run_image_creator env pd).status = some "Success")
  ∧ ((run_image_creator env pd).error.isSome
      ↔ (run_image_creator env pd).status = some "Failed")
  ∧ ((pd = none ∨ pd = some ⟨""⟩) →
      run_image_creator env pd = ⟨some "Failed", none, some "No prompt provided."⟩) := by
  cases pd with
  | none =>
    have hrun : run_image_creator env none =
        ⟨some "Failed", none, some "No prompt provided."⟩ := rfl
    rw [hrun]
    refine ⟨Or.inr rfl, by decide, by decide, by decide, fun _ => rfl⟩
  | some q =>
    have hrun : run_image_creator env (some q) =
        if q.image_prompt = "" then ⟨some "Failed", none, some "No prompt provided."⟩
        else
          match env.gen with
          | .error e => ⟨some "Failed", none, some e⟩
          | .ok _ => ⟨some "Success", some env.filename, none⟩ := rfl
    rw [hrun]
    by_cases hq : q.image_prompt = ""
    · rw [if_pos hq]
      refine ⟨Or.inr rfl, by decide, by decide, by decide, fun _ => rfl⟩
    · rw [if_neg hq]
      cases env.gen with
      | error e =>
        refine ⟨Or.inr rfl, by simp [emptyImageResult], by simp, by simp, ?_⟩
        rintro (h | h)
        · exact Option.noConfusion h
        · rw [Option.some.injEq] at h
          subst h
          exact absurd rfl hq
      | ok u =>
        refine ⟨Or.inl rfl, by simp [emptyImageResult], by simp, by simp, ?_⟩
        rintro (h | h)
        · exact Option.noConfusion h
        · rw [Option.some.injEq] at h
          subst h
          exact absurd rfl hq

/-- Witness for C10 at a concrete input: the empty-dict prompt input yields
the Failed result with an error and no filename. -/
theorem image_creator_always_tagged_witness :
    ((none : Option ImagePromptData) = none ∨ (none : Option ImagePromptData) = some ⟨""⟩)
  ∧ run_image_creator ⟨Except.ok (), "campaign-images/x.png"⟩ none
      = ⟨some "Failed", none, some "No prompt provided."⟩ :=
  ⟨Or.inl rfl,
   (image_creator_always_tagged ⟨Except.ok (), "campaign-images/x.png"⟩ none).2.2.2.2
     (Or.inl rfl)⟩
